import Mathlib

/-!
Shallow embedding of `src/mixer/blender_client/data.py` (the generic
data-synchronization layer of the mixer repository), together with
spec-level models of its external collaborators: the wire framer
(`common.encode_string` / `common.decode_string`), the transport command
channel (`share_data.client.add_command`), the codec
(`Codec.encode` / `Codec.decode`), and the data store
(`share_data.bpy_data_proxy`).

Python execution is embedded as explicit state passing. A function that
may let an exception escape returns `State × Option PyExc`, where `none`
means normal return and `some e` means the exception `e` propagated past
the call boundary. External collaborators whose behaviour is not part of
this repository's source are parameters (fields of `Env`).
-/

namespace Mixer

/-- Bytes (and Python strings) are modelled as lists of naturals. -/
abbrev Bytes := List Nat

/-- Modelled from the spec: the message kind tags of
`mixer.broadcaster.common.MessageType` used by `data.py`. -/
inductive MessageType where
  | BLENDER_DATA_CREATE
  | BLENDER_DATA_UPDATE
  | BLENDER_DATA_REMOVE
  | BLENDER_DATA_RENAME
deriving DecidableEq, Repr

/-- Modelled from the spec: the transport message envelope
`common.Command(message_type, payload, reserved)`. -/
structure Command where
  type : MessageType
  buffer : Bytes
  reserved : Nat
deriving DecidableEq, Repr

/-- Python exceptions distinguished by the embedding. `unboundLocal` is the
`UnboundLocalError` raised when a local variable is referenced before
assignment. -/
inductive PyExc where
  | codecError
  | storeError
  | framingError
  | unboundLocal
deriving DecidableEq, Repr

/-- Entries written through `logger.error` by `data.py`. A run of
`traceback.format_exc().splitlines()` lines is collapsed into one
`traceback` entry. -/
inductive LogEntry where
  | sendEncodeError (record : Nat)
  | excDuringBuild
  | traceback
  | processingBuffer (record : Nat)
  | dump (b : Bytes)
  | ellipsis
  | ignored
deriving DecidableEq, Repr

/-- The observable state threaded through the layer: the gate
(`share_data.use_experimental_sync()`), the transport outbound queue, the
store dirty flag (`share_data.set_dirty`), the calls made on the store
proxy (`share_data.bpy_data_proxy`), and the error log. -/
structure State where
  use_experimental_sync : Bool
  commands : List Command
  dirty : Bool
  createCalls : List Nat
  updateCalls : List Nat
  removeCalls : List Bytes
  renameCalls : List (Bytes × Bytes)
  errorLog : List LogEntry
deriving DecidableEq, Repr

/-- Modelled from the spec: `share_data.client.add_command` enqueues one
command on the transport outbound queue. -/
def State.add_command (st : State) (c : Command) : State :=
  { st with commands := st.commands ++ [c] }

/-- Modelled from the spec: `share_data.set_dirty` marks the store dirty. -/
def State.set_dirty (st : State) : State :=
  { st with dirty := true }

/-- One `logger.error` call. -/
def State.log (st : State) (e : LogEntry) : State :=
  { st with errorLog := st.errorLog ++ [e] }

/-- A sequence of `logger.error` calls. -/
def State.logs (st : State) (es : List LogEntry) : State :=
  { st with errorLog := st.errorLog ++ es }

/-- Modelled from the spec: the Wire Framer's `encode_string(s) -> bytes`,
a length-prefixed encoding (`mixer.broadcaster.common.encode_string` is not
under `src/`). The length prefix is one abstract cell. -/
def encode_string (s : Bytes) : Bytes :=
  s.length :: s

/-- Modelled from the spec: the Wire Framer's
`decode_string(bytes, offset) -> (s, next_offset)`; `none` models the
framer raising on a truncated buffer. -/
def decode_string (b : Bytes) (offset : Nat) : Option (Bytes × Nat) :=
  match b.drop offset with
  | [] => none
  | n :: rest => if rest.length < n then none else some (rest.take n, offset + 1 + n)

/-- Normalize a Python slice bound: negative indices count from the end,
and the result is clamped into `[0, len]`. -/
def pyIndex (len : Nat) (i : Int) : Nat :=
  if i < 0 then (i + len).toNat else min i.toNat len

/-- Python slicing `b[start:stop]`. -/
def pySlice (b : Bytes) (start stop : Int) : Bytes :=
  let s := pyIndex b.length start
  let e := pyIndex b.length stop
  (b.drop s).take (e - s)

/-- External collaborators of `data.py` whose code is outside `src/`:
the codec (`mixer.blender_data.json_codec.Codec`) and the store proxy
(`share_data.bpy_data_proxy`). Change records (proxies and deltas) are
abstracted as naturals. `create_datablock` returns the rename changeset
(second component of its Python result); an empty list models `None`. -/
structure Env where
  encode : Nat → Except PyExc Bytes
  decode : Bytes → Except PyExc Nat
  create_datablock : Nat → Except PyExc (List (Bytes × Bytes × Bytes))
  update_datablock : Nat → Except PyExc Unit
  remove_datablock : Bytes → Except PyExc Unit
  rename_datablock : Bytes → Bytes → Except PyExc Unit

/-- Loop body of `send_data_creations`: encode one proxy; on exception log
and continue, otherwise frame the payload and enqueue a
`BLENDER_DATA_CREATE` command with reserved field `0`. -/
def sendCreationStep (env : Env) (st : State) (proxy : Nat) : State :=
  match env.encode proxy with
  | .error _ => (st.log (.sendEncodeError proxy)).log .traceback
  | .ok encoded_proxy =>
      st.add_command ⟨.BLENDER_DATA_CREATE, encode_string encoded_proxy, 0⟩

/-- `send_data_creations` from `data.py`. -/
def send_data_creations (env : Env) (proxies : List Nat) (st : State) : State :=
  if !st.use_experimental_sync then st
  else proxies.foldl (sendCreationStep env) st

/-- Loop body of `send_data_updates`. -/
def sendUpdateStep (env : Env) (st : State) (update : Nat) : State :=
  match env.encode update with
  | .error _ => (st.log (.sendEncodeError update)).log .traceback
  | .ok encoded_update =>
      st.add_command ⟨.BLENDER_DATA_UPDATE, encode_string encoded_update, 0⟩

/-- `send_data_updates` from `data.py`. -/
def send_data_updates (env : Env) (updates : List Nat) (st : State) : State :=
  if !st.use_experimental_sync then st
  else updates.foldl (sendUpdateStep env) st

/-- Loop body of `send_data_removals`: payload is
`encode_string(uuid) + encode_string(debug_info)`. -/
def sendRemovalStep (st : State) (removal : Bytes × Bytes) : State :=
  st.add_command
    ⟨.BLENDER_DATA_REMOVE, encode_string removal.1 ++ encode_string removal.2, 0⟩

/-- `send_data_removals` from `data.py`. -/
def send_data_removals (removals : List (Bytes × Bytes)) (st : State) : State :=
  if !st.use_experimental_sync then st
  else removals.foldl sendRemovalStep st

/-- Loop body of `send_data_renames`: payload is
`encode_string(uuid) + encode_string(new_name) + encode_string(debug_info)`. -/
def sendRenameStep (st : State) (rename : Bytes × Bytes × Bytes) : State :=
  st.add_command
    ⟨.BLENDER_DATA_RENAME,
      encode_string rename.1 ++ encode_string rename.2.1 ++ encode_string rename.2.2, 0⟩

/-- `send_data_renames` from `data.py`. -/
def send_data_renames (renames : List (Bytes × Bytes × Bytes)) (st : State) : State :=
  if !st.use_experimental_sync then st
  else renames.foldl sendRenameStep st

/-- The `logger.error` sequence emitted by the except handler of
`build_data_create` / `build_data_update` when the decoded record `r` is
bound: the exception header, the traceback, the record context, the head
dump `buffer[0:200]`, an ellipsis, the tail dump `buffer[-200:0]`, and
`ignored`. -/
def buildErrorLog (r : Nat) (buf : Bytes) : List LogEntry :=
  [.excDuringBuild, .traceback, .processingBuffer r,
   .dump (pySlice buf 0 200), .ellipsis, .dump (pySlice buf (-200) 0), .ignored]

/-- `build_data_create` from `data.py`. The outer `decode_string` runs
before the try block, so its failure propagates. Inside the try block, a
codec failure leaves `id_proxy` unbound, so the except handler itself
raises `UnboundLocalError` after its first two `logger.error` calls. When
`create_datablock` fails after a successful decode, the handler completes
and `rename_changeset` keeps its initial `None`. A non-empty rename
changeset is forwarded to `send_data_renames`. -/
def build_data_create (env : Env) (buffer : Bytes) (st : State) :
    State × Option PyExc :=
  if !st.use_experimental_sync then (st, none)
  else
    match decode_string buffer 0 with
    | none => (st, some .framingError)
    | some (buf, _) =>
      match env.decode buf with
      | .error _ =>
          (st.logs [.excDuringBuild, .traceback], some .unboundLocal)
      | .ok id_proxy =>
          let st := st.set_dirty
          let st := { st with createCalls := st.createCalls ++ [id_proxy] }
          match env.create_datablock id_proxy with
          | .error _ => (st.logs (buildErrorLog id_proxy buf), none)
          | .ok rename_changeset =>
              if rename_changeset.isEmpty then (st, none)
              else (send_data_renames rename_changeset st, none)

/-- `build_data_update` from `data.py`. Mirrors `build_data_create` with
`update_datablock` and no secondary changeset. -/
def build_data_update (env : Env) (buffer : Bytes) (st : State) :
    State × Option PyExc :=
  if !st.use_experimental_sync then (st, none)
  else
    match decode_string buffer 0 with
    | none => (st, some .framingError)
    | some (buf, _) =>
      match env.decode buf with
      | .error _ =>
          (st.logs [.excDuringBuild, .traceback], some .unboundLocal)
      | .ok delta =>
          let st := st.set_dirty
          let st := { st with updateCalls := st.updateCalls ++ [delta] }
          match env.update_datablock delta with
          | .error _ => (st.logs (buildErrorLog delta buf), none)
          | .ok _ => (st, none)

/-- `build_data_remove` from `data.py`. No try block: a failure of
`remove_datablock` propagates, and `set_dirty` runs only after the store
call returns. -/
def build_data_remove (env : Env) (buffer : Bytes) (st : State) :
    State × Option PyExc :=
  if !st.use_experimental_sync then (st, none)
  else
    match decode_string buffer 0 with
    | none => (st, some .framingError)
    | some (uuid, index) =>
      match decode_string buffer index with
      | none => (st, some .framingError)
      | some (_debug_info, _) =>
        let st := { st with removeCalls := st.removeCalls ++ [uuid] }
        match env.remove_datablock uuid with
        | .error e => (st, some e)
        | .ok _ => (st.set_dirty, none)

/-- `build_data_rename` from `data.py`. No try block: a failure of
`rename_datablock` propagates, and `set_dirty` runs only after the store
call returns. -/
def build_data_rename (env : Env) (buffer : Bytes) (st : State) :
    State × Option PyExc :=
  if !st.use_experimental_sync then (st, none)
  else
    match decode_string buffer 0 with
    | none => (st, some .framingError)
    | some (uuid, index) =>
      match decode_string buffer index with
      | none => (st, some .framingError)
      | some (new_name, index2) =>
        match decode_string buffer index2 with
        | none => (st, some .framingError)
        | some (_debug_info, _) =>
          let st := { st with renameCalls := st.renameCalls ++ [(uuid, new_name)] }
          match env.rename_datablock uuid new_name with
          | .error e => (st, some e)
          | .ok _ => (st.set_dirty, none)

/-- Decode one outbound CREATE/UPDATE payload back into a record: unframe
the single length-prefixed string, then codec-decode it. -/
def decodePayload (env : Env) (payload : Bytes) : Option Nat :=
  match decode_string payload 0 with
  | none => none
  | some (buf, _) => (env.decode buf).toOption

/-- A fresh state with the experimental-sync gate enabled. -/
def stOn : State := ⟨true, [], false, [], [], [], [], []⟩

/-- A fresh state with the experimental-sync gate disabled. -/
def stOff : State := ⟨false, [], false, [], [], [], [], []⟩

/-- A collaborator environment where every operation succeeds; the codec
encodes the record `r` as the singleton buffer `[r]`. -/
def envOk : Env where
  encode := fun r => .ok [r]
  decode := fun b => match b with | [r] => .ok r | _ => .error .codecError
  create_datablock := fun _ => .ok []
  update_datablock := fun _ => .ok ()
  remove_datablock := fun _ => .ok ()
  rename_datablock := fun _ _ => .ok ()

/-- An environment whose codec fails to encode exactly the record `2`. -/
def envSkipSecond : Env where
  encode := fun r => if r = 2 then .error .codecError else .ok [r]
  decode := fun b => match b with | [r] => .ok r | _ => .error .codecError
  create_datablock := fun _ => .ok []
  update_datablock := fun _ => .ok ()
  remove_datablock := fun _ => .ok ()
  rename_datablock := fun _ _ => .ok ()

/-- An environment whose codec fails to decode every buffer. -/
def envBadDecode : Env where
  encode := fun r => .ok [r]
  decode := fun _ => .error .codecError
  create_datablock := fun _ => .ok []
  update_datablock := fun _ => .ok ()
  remove_datablock := fun _ => .ok ()
  rename_datablock := fun _ _ => .ok ()

/-- An environment whose codec decodes every buffer to the record `42` but
whose store rejects every operation. -/
def envBadStore : Env where
  encode := fun r => .ok [r]
  decode := fun _ => .ok 42
  create_datablock := fun _ => .error .storeError
  update_datablock := fun _ => .error .storeError
  remove_datablock := fun _ => .error .storeError
  rename_datablock := fun _ _ => .error .storeError

/-- An environment where creating a datablock reports a name collision:
`create_datablock` returns a one-entry rename changeset. -/
def envRename : Env where
  encode := fun r => .ok [r]
  decode := fun _ => .ok 0
  create_datablock := fun _ => .ok [([1], [2], [3])]
  update_datablock := fun _ => .ok ()
  remove_datablock := fun _ => .ok ()
  rename_datablock := fun _ _ => .ok ()

theorem foldl_sendCreationStep_commands (env : Env) (ps : List Nat) (st : State) :
    (ps.foldl (sendCreationStep env) st).commands =
      st.commands ++
        ((ps.filterMap fun p => (env.encode p).toOption).map
          fun b => ⟨MessageType.BLENDER_DATA_CREATE, encode_string b, 0⟩) := by
  induction ps generalizing st with
  | nil => simp
  | cons p ps ih =>
      simp only [List.foldl_cons, List.filterMap_cons]
      cases h : env.encode p with
      | error e => simp [ih, sendCreationStep, h, State.log, Except.toOption]
      | ok b => simp [ih, sendCreationStep, h, State.add_command, Except.toOption]

theorem foldl_sendUpdateStep_commands (env : Env) (us : List Nat) (st : State) :
    (us.foldl (sendUpdateStep env) st).commands =
      st.commands ++
        ((us.filterMap fun u => (env.encode u).toOption).map
          fun b => ⟨MessageType.BLENDER_DATA_UPDATE, encode_string b, 0⟩) := by
  induction us generalizing st with
  | nil => simp
  | cons u us ih =>
      simp only [List.foldl_cons, List.filterMap_cons]
      cases h : env.encode u with
      | error e => simp [ih, sendUpdateStep, h, State.log, Except.toOption]
      | ok b => simp [ih, sendUpdateStep, h, State.add_command, Except.toOption]

theorem foldl_sendRemovalStep_commands (rs : List (Bytes × Bytes)) (st : State) :
    (rs.foldl sendRemovalStep st).commands =
      st.commands ++
        rs.map (fun r =>
          ⟨MessageType.BLENDER_DATA_REMOVE, encode_string r.1 ++ encode_string r.2, 0⟩) := by
  induction rs generalizing st with
  | nil => simp
  | cons r rs ih => simp [ih, sendRemovalStep, State.add_command]

theorem foldl_sendRenameStep_commands (ns : List (Bytes × Bytes × Bytes)) (st : State) :
    (ns.foldl sendRenameStep st).commands =
      st.commands ++
        ns.map (fun r =>
          ⟨MessageType.BLENDER_DATA_RENAME,
            encode_string r.1 ++ encode_string r.2.1 ++ encode_string r.2.2, 0⟩) := by
  induction ns generalizing st with
  | nil => simp
  | cons r ns ih => simp [ih, sendRenameStep, State.add_command]

theorem decode_string_drop (b : Bytes) (off : Nat) (s rest : Bytes)
    (h : b.drop off = encode_string s ++ rest) :
    decode_string b off = some (s, off + 1 + s.length) := by
  unfold decode_string
  rw [h]
  simp only [encode_string, List.cons_append]
  rw [if_neg (by simp), List.take_left]

theorem decode_string_encode (s rest : Bytes) :
    decode_string (encode_string s ++ rest) 0 = some (s, 1 + s.length) := by
  have h := decode_string_drop (encode_string s ++ rest) 0 s rest (by simp)
  simpa using h

/-- C3: when the gate (`share_data.use_experimental_sync()`) is disabled,
each of the eight public operations returns immediately: the state (store
calls, dirty flag, transport queue, logs) is unchanged and no exception
escapes. -/
theorem gate_disabled_all_operations_noop (env : Env) (ps us : List Nat)
    (rs : List (Bytes × Bytes)) (ns : List (Bytes × Bytes × Bytes))
    (b1 b2 b3 b4 : Bytes) (st : State)
    (h : st.use_experimental_sync = false) :
    send_data_creations env ps st = st ∧
    send_data_updates env us st = st ∧
    send_data_removals rs st = st ∧
    send_data_renames ns st = st ∧
    build_data_create env b1 st = (st, none) ∧
    build_data_update env b2 st = (st, none) ∧
    build_data_remove env b3 st = (st, none) ∧
    build_data_rename env b4 st = (st, none) := by
  simp [send_data_creations, send_data_updates, send_data_removals, send_data_renames,
        build_data_create, build_data_update, build_data_remove, build_data_rename, h]

theorem gate_disabled_all_operations_noop_witness :
    stOff.use_experimental_sync = false ∧
    (send_data_creations envOk [1] stOff = stOff ∧
     send_data_updates envOk [2] stOff = stOff ∧
     send_data_removals [([3], [4])] stOff = stOff ∧
     send_data_renames [([5], [6], [7])] stOff = stOff ∧
     build_data_create envOk [8] stOff = (stOff, none) ∧
     build_data_update envOk [9] stOff = (stOff, none) ∧
     build_data_remove envOk [10] stOff = (stOff, none) ∧
     build_data_rename envOk [11] stOff = (stOff, none)) :=
  ⟨rfl, gate_disabled_all_operations_noop envOk [1] [2] [([3], [4])] [([5], [6], [7])]
          [8] [9] [10] [11] stOff rfl⟩

/-- C2: `send_data_updates` (and likewise `send_data_creations`) catches
each encoding failure, skips only the failing record, and enqueues one
`BLENDER_DATA_UPDATE` (resp. `BLENDER_DATA_CREATE`) command per
successfully encoded record, in input order: the new queue suffix is the
in-order image of exactly the records whose encoding succeeded. -/
theorem send_updates_and_creations_skip_failing_records (env : Env)
    (updates proxies : List Nat) (st : State)
    (h : st.use_experimental_sync = true) :
    (send_data_updates env updates st).commands =
      st.commands ++
        ((updates.filterMap fun u => (env.encode u).toOption).map
          fun b => ⟨MessageType.BLENDER_DATA_UPDATE, encode_string b, 0⟩) ∧
    (send_data_creations env proxies st).commands =
      st.commands ++
        ((proxies.filterMap fun p => (env.encode p).toOption).map
          fun b => ⟨MessageType.BLENDER_DATA_CREATE, encode_string b, 0⟩) := by
  constructor
  · simp [send_data_updates, h, foldl_sendUpdateStep_commands]
  · simp [send_data_creations, h, foldl_sendCreationStep_commands]

theorem send_updates_and_creations_skip_failing_records_witness :
    stOn.use_experimental_sync = true ∧
    ((send_data_updates envSkipSecond [1, 2, 3] stOn).commands =
      stOn.commands ++
        (([1, 2, 3].filterMap fun u => (envSkipSecond.encode u).toOption).map
          fun b => ⟨MessageType.BLENDER_DATA_UPDATE, encode_string b, 0⟩) ∧
     (send_data_creations envSkipSecond [1, 2, 3] stOn).commands =
      stOn.commands ++
        (([1, 2, 3].filterMap fun p => (envSkipSecond.encode p).toOption).map
          fun b => ⟨MessageType.BLENDER_DATA_CREATE, encode_string b, 0⟩)) :=
  ⟨rfl, send_updates_and_creations_skip_failing_records envSkipSecond
          [1, 2, 3] [1, 2, 3] stOn rfl⟩

/-- C7: for a `CreationChangeset` `[a, b, c]` whose records all encode
successfully, `send_data_creations` enqueues exactly three
`BLENDER_DATA_CREATE` commands, one per record, in input order, and under
the codec round-trip contract the payload sequence decodes back to
`[a, b, c]`. -/
theorem send_data_creations_preserves_order (env : Env) (a b c : Nat)
    (ba bb bc : Bytes) (st : State) (h : st.use_experimental_sync = true)
    (ha : env.encode a = .ok ba) (hb : env.encode b = .ok bb)
    (hc : env.encode c = .ok bc)
    (da : env.decode ba = .ok a) (db : env.decode bb = .ok b)
    (dc : env.decode bc = .ok c) :
    (send_data_creations env [a, b, c] st).commands =
      st.commands ++
        [⟨MessageType.BLENDER_DATA_CREATE, encode_string ba, 0⟩,
         ⟨MessageType.BLENDER_DATA_CREATE, encode_string bb, 0⟩,
         ⟨MessageType.BLENDER_DATA_CREATE, encode_string bc, 0⟩] ∧
    [decodePayload env (encode_string ba), decodePayload env (encode_string bb),
     decodePayload env (encode_string bc)] = [some a, some b, some c] := by
  constructor
  · rw [send_data_creations, if_neg (by simp [h]), foldl_sendCreationStep_commands]
    simp [ha, hb, hc, Except.toOption]
  · have e1 := decode_string_encode ba []
    have e2 := decode_string_encode bb []
    have e3 := decode_string_encode bc []
    simp only [List.append_nil] at e1 e2 e3
    simp [decodePayload, e1, e2, e3, da, db, dc, Except.toOption]

theorem send_data_creations_preserves_order_witness :
    (stOn.use_experimental_sync = true ∧ envOk.encode 1 = .ok [1] ∧
     envOk.encode 2 = .ok [2] ∧ envOk.encode 3 = .ok [3] ∧
     envOk.decode [1] = .ok 1 ∧ envOk.decode [2] = .ok 2 ∧ envOk.decode [3] = .ok 3) ∧
    ((send_data_creations envOk [1, 2, 3] stOn).commands =
      stOn.commands ++
        [⟨MessageType.BLENDER_DATA_CREATE, encode_string [1], 0⟩,
         ⟨MessageType.BLENDER_DATA_CREATE, encode_string [2], 0⟩,
         ⟨MessageType.BLENDER_DATA_CREATE, encode_string [3], 0⟩] ∧
     [decodePayload envOk (encode_string [1]), decodePayload envOk (encode_string [2]),
      decodePayload envOk (encode_string [3])] = [some 1, some 2, some 3]) :=
  ⟨⟨rfl, rfl, rfl, rfl, rfl, rfl, rfl⟩,
   send_data_creations_preserves_order envOk 1 2 3 [1] [2] [3] stOn
     rfl rfl rfl rfl rfl rfl rfl⟩

/-- C9: every command enqueued by any of the four outbound operations
carries a reserved field equal to zero: if every command already on the
queue has reserved zero, so does every command on the queue after any
of the four `send` operations. -/
theorem send_commands_reserved_zero (env : Env) (ps us : List Nat)
    (rs : List (Bytes × Bytes)) (ns : List (Bytes × Bytes × Bytes)) (st : State)
    (h : ∀ c ∈ st.commands, c.reserved = 0) :
    (∀ c ∈ (send_data_creations env ps st).commands, c.reserved = 0) ∧
    (∀ c ∈ (send_data_updates env us st).commands, c.reserved = 0) ∧
    (∀ c ∈ (send_data_removals rs st).commands, c.reserved = 0) ∧
    (∀ c ∈ (send_data_renames ns st).commands, c.reserved = 0) := by
  by_cases hg : st.use_experimental_sync
  · refine ⟨?_, ?_, ?_, ?_⟩ <;> intro c hc
    · rw [send_data_creations, if_neg (by simp [hg])] at hc
      rw [foldl_sendCreationStep_commands, List.mem_append] at hc
      rcases hc with hc | hc
      · exact h c hc
      · obtain ⟨b, _, rfl⟩ := List.mem_map.mp hc
        rfl
    · rw [send_data_updates, if_neg (by simp [hg])] at hc
      rw [foldl_sendUpdateStep_commands, List.mem_append] at hc
      rcases hc with hc | hc
      · exact h c hc
      · obtain ⟨b, _, rfl⟩ := List.mem_map.mp hc
        rfl
    · rw [send_data_removals, if_neg (by simp [hg])] at hc
      rw [foldl_sendRemovalStep_commands, List.mem_append] at hc
      rcases hc with hc | hc
      · exact h c hc
      · obtain ⟨r, _, rfl⟩ := List.mem_map.mp hc
        rfl
    · rw [send_data_renames, if_neg (by simp [hg])] at hc
      rw [foldl_sendRenameStep_commands, List.mem_append] at hc
      rcases hc with hc | hc
      · exact h c hc
      · obtain ⟨r, _, rfl⟩ := List.mem_map.mp hc
        rfl
  · simp only [Bool.not_eq_true] at hg
    rw [send_data_creations, if_pos (by simp [hg]), send_data_updates,
        if_pos (by simp [hg]), send_data_removals, if_pos (by simp [hg]),
        send_data_renames, if_pos (by simp [hg])]
    exact ⟨h, h, h, h⟩

/-- C6: one removal `(uuid, debug_info)` sent by `send_data_removals`
produces exactly one `BLENDER_DATA_REMOVE` command whose payload decodes
back to `uuid` and `debug_info` exactly, and feeding that payload to
`build_data_remove` triggers exactly one `remove_datablock` call with
that uuid. -/
theorem removal_roundtrip_single_remove_call (env : Env) (uuid debug_info : Bytes)
    (st str : State) (hs : st.use_experimental_sync = true)
    (hr : str.use_experimental_sync = true)
    (hok : env.remove_datablock uuid = .ok ()) :
    (send_data_removals [(uuid, debug_info)] st).commands =
      st.commands ++
        [⟨MessageType.BLENDER_DATA_REMOVE,
          encode_string uuid ++ encode_string debug_info, 0⟩] ∧
    decode_string (encode_string uuid ++ encode_string debug_info) 0 =
      some (uuid, 1 + uuid.length) ∧
    decode_string (encode_string uuid ++ encode_string debug_info) (1 + uuid.length) =
      some (debug_info, (1 + uuid.length) + 1 + debug_info.length) ∧
    (build_data_remove env (encode_string uuid ++ encode_string debug_info) str).1.removeCalls =
      str.removeCalls ++ [uuid] ∧
    (build_data_remove env (encode_string uuid ++ encode_string debug_info) str).2 = none := by
  have h1 : decode_string (encode_string uuid ++ encode_string debug_info) 0 =
      some (uuid, 1 + uuid.length) := decode_string_encode uuid (encode_string debug_info)
  have hdrop : (encode_string uuid ++ encode_string debug_info).drop (1 + uuid.length) =
      encode_string debug_info ++ [] := by
    have : 1 + uuid.length = (encode_string uuid).length := by
      simp [encode_string, Nat.add_comm]
    rw [this, List.drop_left, List.append_nil]
  have h2 := decode_string_drop (encode_string uuid ++ encode_string debug_info)
      (1 + uuid.length) debug_info [] hdrop
  refine ⟨?_, h1, h2, ?_, ?_⟩
  · rw [send_data_removals, if_neg (by simp [hs]), foldl_sendRemovalStep_commands]
    simp
  · rw [build_data_remove, if_neg (by simp [hr]), h1]
    simp [h2, hok, State.set_dirty]
  · rw [build_data_remove, if_neg (by simp [hr]), h1]
    simp [h2, hok]

theorem removal_roundtrip_single_remove_call_witness :
    (stOn.use_experimental_sync = true ∧ envOk.remove_datablock [7] = .ok ()) ∧
    ((send_data_removals [([7], [8])] stOn).commands =
      stOn.commands ++
        [⟨MessageType.BLENDER_DATA_REMOVE, encode_string [7] ++ encode_string [8], 0⟩] ∧
     decode_string (encode_string [7] ++ encode_string [8]) 0 =
       some ([7], 1 + List.length [7]) ∧
     decode_string (encode_string [7] ++ encode_string [8]) (1 + List.length [7]) =
       some ([8], (1 + List.length [7]) + 1 + List.length [8]) ∧
     (build_data_remove envOk (encode_string [7] ++ encode_string [8]) stOn).1.removeCalls =
       stOn.removeCalls ++ [[7]] ∧
     (build_data_remove envOk (encode_string [7] ++ encode_string [8]) stOn).2 = none) :=
  ⟨⟨rfl, rfl⟩, removal_roundtrip_single_remove_call envOk [7] [8] stOn stOn rfl rfl rfl⟩

/-- C5: when `create_datablock` returns a non-empty rename changeset,
`build_data_create` forwards it to `send_data_renames`: the only commands
enqueued are exactly one `BLENDER_DATA_RENAME` per changeset entry,
carrying the identifier and corrected name returned by the store, and no
exception escapes. -/
theorem build_data_create_forwards_rename_changeset (env : Env) (st : State)
    (buffer buf : Bytes) (k p : Nat) (renames : List (Bytes × Bytes × Bytes))
    (hg : st.use_experimental_sync = true)
    (hframe : decode_string buffer 0 = some (buf, k))
    (hdec : env.decode buf = .ok p)
    (hcreate : env.create_datablock p = .ok renames)
    (hne : renames ≠ []) :
    (build_data_create env buffer st).1.commands =
      st.commands ++
        renames.map (fun r =>
          ⟨MessageType.BLENDER_DATA_RENAME,
            encode_string r.1 ++ encode_string r.2.1 ++ encode_string r.2.2, 0⟩) ∧
    (build_data_create env buffer st).2 = none := by
  rw [build_data_create, if_neg (by simp [hg]), hframe]
  simp only [hdec, hcreate]
  rw [if_neg (by simp [hne])]
  constructor
  · rw [send_data_renames, if_neg (by simp [State.set_dirty, hg]),
        foldl_sendRenameStep_commands]
    simp [State.set_dirty]
  · rfl

theorem build_data_create_forwards_rename_changeset_witness :
    (stOn.use_experimental_sync = true ∧
     decode_string (encode_string [9]) 0 = some ([9], 0 + 1 + List.length [9]) ∧
     envRename.decode [9] = .ok 0 ∧
     envRename.create_datablock 0 = .ok [([1], [2], [3])] ∧
     ([([1], [2], [3])] : List (Bytes × Bytes × Bytes)) ≠ []) ∧
    ((build_data_create envRename (encode_string [9]) stOn).1.commands =
      stOn.commands ++
        ([([1], [2], [3])] : List (Bytes × Bytes × Bytes)).map (fun r =>
          ⟨MessageType.BLENDER_DATA_RENAME,
            encode_string r.1 ++ encode_string r.2.1 ++ encode_string r.2.2, 0⟩) ∧
     (build_data_create envRename (encode_string [9]) stOn).2 = none) :=
  ⟨⟨rfl, rfl, rfl, rfl, by decide⟩,
   build_data_create_forwards_rename_changeset envRename stOn (encode_string [9]) [9]
     (0 + 1 + List.length [9]) 0 [([1], [2], [3])] rfl rfl rfl rfl (by decide)⟩

/-- C4 counterexample: decoding succeeded but the store rejected the
operation, and the error unwinds past `build_data_remove`, against the
claim that an ApplicationError never unwinds past the handler for every
message kind. -/
theorem build_data_remove_store_failure_escapes :
    (build_data_remove envBadStore (encode_string [7] ++ encode_string [8]) stOn).2 =
      some PyExc.storeError := rfl

/-- C4 amended: ApplicationError containment is asymmetric. A store
failure after a successful decode is contained inside `build_data_create`
and `build_data_update` (no exception escapes), but a store failure in
`remove_datablock` or `rename_datablock` propagates past
`build_data_remove` / `build_data_rename`. -/
theorem application_error_containment_asymmetric (env : Env) (st : State)
    (buffer buf nn dbg : Bytes) (k r j m : Nat) (e3 e4 : PyExc)
    (hg : st.use_experimental_sync = true)
    (hframe : decode_string buffer 0 = some (buf, k))
    (hdec : env.decode buf = .ok r)
    (hnn : decode_string buffer k = some (nn, j))
    (hdbg : decode_string buffer j = some (dbg, m))
    (hrem : env.remove_datablock buf = .error e3)
    (hren : env.rename_datablock buf nn = .error e4) :
    (build_data_update env buffer st).2 = none ∧
    (build_data_create env buffer st).2 = none ∧
    (build_data_remove env buffer st).2 = some e3 ∧
    (build_data_rename env buffer st).2 = some e4 := by
  refine ⟨?_, ?_, ?_, ?_⟩
  · rw [build_data_update, if_neg (by simp [hg]), hframe]
    simp only [hdec]
    cases env.update_datablock r <;> rfl
  · rw [build_data_create, if_neg (by simp [hg]), hframe]
    simp only [hdec]
    cases hc : env.create_datablock r with
    | error e => rfl
    | ok l =>
        by_cases hl : l.isEmpty
        · simp [hl]
        · simp [hl]
  · rw [build_data_remove, if_neg (by simp [hg]), hframe]
    simp [hnn, hrem]
  · rw [build_data_rename, if_neg (by simp [hg]), hframe]
    simp [hnn, hdbg, hren]

theorem application_error_containment_asymmetric_witness :
    (stOn.use_experimental_sync = true ∧
     decode_string (encode_string [5] ++ encode_string [6] ++ encode_string [7]) 0 =
       some ([5], 2) ∧
     envBadStore.decode [5] = .ok 42 ∧
     decode_string (encode_string [5] ++ encode_string [6] ++ encode_string [7]) 2 =
       some ([6], 4) ∧
     decode_string (encode_string [5] ++ encode_string [6] ++ encode_string [7]) 4 =
       some ([7], 6) ∧
     envBadStore.remove_datablock [5] = .error PyExc.storeError ∧
     envBadStore.rename_datablock [5] [6] = .error PyExc.storeError) ∧
    ((build_data_update envBadStore
        (encode_string [5] ++ encode_string [6] ++ encode_string [7]) stOn).2 = none ∧
     (build_data_create envBadStore
        (encode_string [5] ++ encode_string [6] ++ encode_string [7]) stOn).2 = none ∧
     (build_data_remove envBadStore
        (encode_string [5] ++ encode_string [6] ++ encode_string [7]) stOn).2 =
       some PyExc.storeError ∧
     (build_data_rename envBadStore
        (encode_string [5] ++ encode_string [6] ++ encode_string [7]) stOn).2 =
       some PyExc.storeError) :=
  ⟨⟨rfl, rfl, rfl, rfl, rfl, rfl, rfl⟩,
   application_error_containment_asymmetric envBadStore stOn
     (encode_string [5] ++ encode_string [6] ++ encode_string [7]) [5] [6] [7]
     2 42 4 6 PyExc.storeError PyExc.storeError rfl rfl rfl rfl rfl rfl rfl⟩

/-- C10: in `build_data_create` and `build_data_update`, `set_dirty` runs
as soon as decoding succeeds and before the store operation; hence on any
payload that decodes but whose application raises, the store is left
marked dirty. -/
theorem build_dirty_set_despite_application_failure (env : Env) (st : State)
    (buffer buf : Bytes) (k r : Nat) (e1 e2 : PyExc)
    (hg : st.use_experimental_sync = true)
    (hframe : decode_string buffer 0 = some (buf, k))
    (hdec : env.decode buf = .ok r)
    (hupd : env.update_datablock r = .error e1)
    (hcre : env.create_datablock r = .error e2) :
    (build_data_update env buffer st).1.dirty = true ∧
    (build_data_create env buffer st).1.dirty = true := by
  constructor
  · rw [build_data_update, if_neg (by simp [hg]), hframe]
    simp [hdec, hupd, State.set_dirty, State.logs]
  · rw [build_data_create, if_neg (by simp [hg]), hframe]
    simp [hdec, hcre, State.set_dirty, State.logs]

theorem build_dirty_set_despite_application_failure_witness :
    (stOn.use_experimental_sync = true ∧
     decode_string (encode_string [5]) 0 = some ([5], 2) ∧
     envBadStore.decode [5] = .ok 42 ∧
     envBadStore.update_datablock 42 = .error PyExc.storeError ∧
     envBadStore.create_datablock 42 = .error PyExc.storeError) ∧
    ((build_data_update envBadStore (encode_string [5]) stOn).1.dirty = true ∧
     (build_data_create envBadStore (encode_string [5]) stOn).1.dirty = true) :=
  ⟨⟨rfl, rfl, rfl, rfl, rfl⟩,
   build_dirty_set_despite_application_failure envBadStore stOn (encode_string [5]) [5]
     2 42 PyExc.storeError PyExc.storeError rfl rfl rfl rfl rfl⟩

/-- C1: the claim fails on the code. On a payload whose codec decoding
raises, the except handler of `build_data_update` (and of
`build_data_create`) references the local `delta` (resp. `id_proxy`)
before assignment while formatting its log message, so the handler itself
raises `UnboundLocalError`, which propagates past the call boundary. -/
theorem build_decode_failure_escapes_handler :
    (build_data_update envBadDecode (encode_string [0]) stOn).2 =
      some PyExc.unboundLocal ∧
    (build_data_create envBadDecode (encode_string [0]) stOn).2 =
      some PyExc.unboundLocal := ⟨rfl, rfl⟩

/-- C8: the claim fails on the code. When the except handler of
`build_data_update` runs to completion (application failure after a
successful decode), the head dump `buffer[0:200]` is logged, but the tail
dump is `buffer[-200:0]`, an always-empty slice, instead of the last ~200
bytes: on the five-byte payload below the handler logs `dump []` where
the spec requires the trailing bytes `[1, 2, 3, 4, 5]`. -/
theorem build_data_update_tail_dump_empty :
    (build_data_update envBadStore (encode_string [1, 2, 3, 4, 5]) stOn).1.errorLog =
      [LogEntry.excDuringBuild, LogEntry.traceback, LogEntry.processingBuffer 42,
       LogEntry.dump [1, 2, 3, 4, 5], LogEntry.ellipsis, LogEntry.dump [],
       LogEntry.ignored] ∧
    pySlice [1, 2, 3, 4, 5] (-200) 0 = [] ∧
    pySlice [1, 2, 3, 4, 5] 0 200 = [1, 2, 3, 4, 5] := ⟨rfl, rfl, rfl⟩

theorem send_commands_reserved_zero_witness :
    (∀ c ∈ stOn.commands, c.reserved = 0) ∧
    ((∀ c ∈ (send_data_creations envOk [1] stOn).commands, c.reserved = 0) ∧
     (∀ c ∈ (send_data_updates envOk [2] stOn).commands, c.reserved = 0) ∧
     (∀ c ∈ (send_data_removals [([3], [4])] stOn).commands, c.reserved = 0) ∧
     (∀ c ∈ (send_data_renames [([5], [6], [7])] stOn).commands, c.reserved = 0)) :=
  ⟨by simp [stOn],
   send_commands_reserved_zero envOk [1] [2] [([3], [4])] [([5], [6], [7])] stOn
     (by simp [stOn])⟩

end Mixer
